import Mathlib

/-! bsonuuid: a BSON value codec for uuid.UUID

A shallow embedding of `uuid.go` (the encoder `UUIDEncodeValue` and the decoder
`UUIDDecodeValue`) together with the library primitives the two functions call:

* `github.com/google/uuid`: the `UUID` array type, `MarshalBinary`, `FromBytes`, `Parse`;
* `reflect`: a `Value` that is invalid, is a settable slot of type `uuid.UUID`, is a
  `uuid.UUID` that cannot be set, or holds something else; `Value.Set` panics on a value
  that cannot be set;
* `bsonrw`: the `ValueWriter` and `ValueReader` interfaces, modelled as the answers their
  methods give, with every method call recorded in the result of the codec function;
* `fmt`: the two `Errorf` messages, with `%v` on a byte and on a `bsontype.Type`;
* `bsoncodec`: a `Registry` with registration by type and lookup, for `registry.go`.

Go's `error` is `Option GoError`, `none` standing for `nil`; a Go `(x, err)` result is
`Except GoError X`. A Go `string` read from the wire is its sequence of bytes. A run that
ends in a panic returns nothing: its result carries the panic instead.
-/

namespace Bsonuuid

/-! ## Bytes, strings, UUIDs -/

/-- A Go `byte`. -/
abbrev Byte := Fin 256

/-- A Go `string` as the driver hands it over: a sequence of bytes. -/
abbrev GoString := List Byte

/-- The bytes of an ASCII text, as a Go string. -/
def GoString.ofString (s : String) : GoString :=
  s.data.map (fun c => Fin.ofNat c.toNat)

/-- The type `uuid.UUID`, declared `type UUID [16]byte`. -/
structure UUID where
  bytes : List Byte
  size_eq : bytes.length = 16
deriving DecidableEq

/-- The zero value `uuid.UUID{}`: sixteen zero bytes. -/
def UUID.zero : UUID := ⟨List.replicate 16 0, by simp⟩

/-- The array assignment `uuid[i] = v`. -/
def UUID.set (u : UUID) (i : Nat) (v : Byte) : UUID :=
  ⟨u.bytes.set i v, by simp [u.size_eq]⟩

/-! ## reflect -/

/-- A `reflect.Type`: the type of `uuid.UUID`, or any other type, known by its name. -/
inductive RType where
  | uuid
  | other (name : String)
deriving DecidableEq, Repr

/-- The package variable `TypeUUID = reflect.TypeOf(uuid.UUID{})`. -/
def TypeUUID : RType := RType.uuid

/-- A `reflect.Value`: the invalid zero Value; a settable value of type `uuid.UUID`,
that is an addressable slot, `u` being its current content; a value of another type, of
which only the type name and a rendering are kept; or a value of type `uuid.UUID` that
is not settable, such as `reflect.ValueOf(u)` is. -/
inductive Value where
  | invalid
  | ofUUID (u : UUID)
  | ofOther (typeName : String) (content : String)
  | unaddressable (u : UUID)
deriving DecidableEq

/-- The method `Value.IsValid`. -/
def Value.IsValid : Value → Bool
  | .invalid => false
  | _ => true

/-- The method `Value.Type`; Go panics on the invalid Value, which is `none` here. -/
def Value.Type_ : Value → Option RType
  | .invalid => none
  | .ofUUID _ => some RType.uuid
  | .ofOther n _ => some (RType.other n)
  | .unaddressable _ => some RType.uuid

/-- The method `Value.CanSet`. -/
def Value.CanSet : Value → Bool
  | .ofUUID _ => true
  | _ => false

/-- The expression `val.Interface().(uuid.UUID)`: the UUID a value of that type holds. -/
def Value.Interface : Value → Option UUID
  | .ofUUID u => some u
  | .unaddressable u => some u
  | _ => none

/-- The method `Value.IsZero` on the values the encoder asks it of: an array is zero
when each of its elements is zero. -/
def Value.IsZero : Value → Bool
  | .ofUUID u => u.bytes.all (fun b => b == 0)
  | .unaddressable u => u.bytes.all (fun b => b == 0)
  | _ => false

/-- The function `reflect.ValueOf` at a `uuid.UUID`: a value that is not addressable. -/
def ValueOf (v : UUID) : Value := Value.unaddressable v

/-- The method `Value.Set`: a settable slot of type `uuid.UUID` takes the UUID that `x`
holds and stays a settable slot; on a value that is not settable, and on an `x` of
another type, Go panics, which is `none` here. -/
def Value.Set (val : Value) (x : Value) : Option Value :=
  if val.CanSet then
    match x.Interface with
    | some u => some (Value.ofUUID u)
    | none => none
  else none

/-- The message of the panic of `Value.Set` on a value that is not settable. -/
def setPanic : String := "reflect: reflect.Value.Set using unaddressable value"

/-! ## Errors -/

/-- The Go `error` values that occur: the two bsoncodec error structs, an error that is
only a message (`errors.New`, `fmt.Errorf`), and the two errors of `uuid.Parse` that
carry data. -/
inductive GoError where
  | ValueEncoderError (Name : String) (Types : List RType) (Received : Value)
  | ValueDecoderError (Name : String) (Types : List RType) (Received : Value)
  | errorString (msg : String)
  | invalidLengthError (len : Nat)
  | invalidUrnPrefix (head : GoString)
deriving DecidableEq

/-! ## github.com/google/uuid -/

/-- The method `UUID.MarshalBinary`: `return uuid[:], nil`. -/
def UUID.MarshalBinary (u : UUID) : List Byte × Option GoError := (u.bytes, none)

/-- The function `uuid.FromBytes`, through `UnmarshalBinary`: a slice of 16 bytes is
copied into the array, any other length is an error. -/
def FromBytes (b : List Byte) : Except GoError UUID :=
  if h : b.length = 16 then .ok ⟨b, h⟩
  else .error (GoError.errorString
    ("invalid UUID (got " ++ Nat.repr b.length ++ " bytes)"))

/-- The table `xvalues`: the value of a hexadecimal digit, 255 for any other byte. -/
def xvalues (c : Byte) : Byte :=
  if 0x30 ≤ c.val ∧ c.val ≤ 0x39 then c - 0x30
  else if 0x41 ≤ c.val ∧ c.val ≤ 0x46 then c - 0x37
  else if 0x61 ≤ c.val ∧ c.val ≤ 0x66 then c - 0x57
  else 255

/-- The function `xtob`: two hexadecimal digits to a byte, and whether both were digits. -/
def xtob (x1 x2 : Byte) : Byte × Bool :=
  let b1 := xvalues x1
  let b2 := xvalues x2
  (Fin.ofNat (((b1.val <<< 4) % 256) ||| b2.val), b1 != 255 && b2 != 255)

/-- The byte `s[i]` of a string, for an index the caller knows to be in range. -/
def byteAt (s : GoString) (i : Nat) : Byte := s.getD i 0

/-- ASCII lower case of one byte. -/
def lowerByte (c : Byte) : Byte :=
  if 0x41 ≤ c.val ∧ c.val ≤ 0x5A then c + 0x20 else c

/-- The loops of `uuid.Parse` over pairs (index into the array, index into the string):
`uuid[i] = xtob(s[x], s[x+1])`, stopping with an error at the first pair that is not
two hexadecimal digits. -/
def parseLoop (s : GoString) : List (Nat × Nat) → UUID → Except GoError UUID
  | [], uuid => .ok uuid
  | (i, x) :: rest, uuid =>
    match xtob (byteAt s x) (byteAt s (x + 1)) with
    | (v, true) => parseLoop s rest (uuid.set i v)
    | (_, false) => .error (GoError.errorString "invalid UUID format")

/-- The positions of the sixteen digit pairs in `xxxxxxxx-xxxx-xxxx-xxxx-xxxxxxxxxxxx`. -/
def hyphenatedPositions : List (Nat × Nat) :=
  [0, 2, 4, 6, 9, 11, 14, 16, 19, 21, 24, 26, 28, 30, 32, 34].enum

/-- The positions of the sixteen digit pairs in the raw form of 32 digits. -/
def rawPositions : List (Nat × Nat) :=
  (List.range 16).map (fun i => (i, i * 2))

/-- The tail of `uuid.Parse`, on a string that starts with the 36-byte form. -/
def parseHyphenated (s : GoString) : Except GoError UUID :=
  if byteAt s 8 != 0x2D || byteAt s 13 != 0x2D || byteAt s 18 != 0x2D
      || byteAt s 23 != 0x2D then
    .error (GoError.errorString "invalid UUID format")
  else parseLoop s hyphenatedPositions UUID.zero

/-- The function `uuid.Parse`: the 36-byte form, the same after `urn:uuid:` (in any
case), the same between two bytes that are not looked at, or 32 digits. -/
def Parse (s : GoString) : Except GoError UUID :=
  if s.length = 36 then parseHyphenated s
  else if s.length = 36 + 9 then
    if (s.take 9).map lowerByte != GoString.ofString "urn:uuid:" then
      .error (GoError.invalidUrnPrefix (s.take 9))
    else parseHyphenated (s.drop 9)
  else if s.length = 36 + 2 then parseHyphenated (s.drop 1)
  else if s.length = 32 then parseLoop s rawPositions UUID.zero
  else .error (GoError.invalidLengthError s.length)

/-- The table `hextable` of `encoding/hex`: the lower-case digit of a value below 16. -/
def hextable (n : Nat) : Byte :=
  if n < 10 then Fin.ofNat (0x30 + n) else Fin.ofNat (0x57 + n)

/-- The function `hex.Encode`: two lower-case digits for each byte, high half first. -/
def hexEncode : List Byte → List Byte
  | [] => []
  | b :: rest => hextable (b.val >>> 4) :: hextable (b.val &&& 0x0f) :: hexEncode rest

/-- The method `UUID.String`, through `encodeHex`: the canonical text
`xxxxxxxx-xxxx-xxxx-xxxx-xxxxxxxxxxxx` in lower case. -/
def UUID.String_ (u : UUID) : GoString :=
  hexEncode (u.bytes.take 4) ++ [0x2D] ++ hexEncode ((u.bytes.drop 4).take 2) ++ [0x2D]
    ++ hexEncode ((u.bytes.drop 6).take 2) ++ [0x2D]
    ++ hexEncode ((u.bytes.drop 8).take 2) ++ [0x2D] ++ hexEncode (u.bytes.drop 10)

/-- ASCII upper case of one byte. -/
def upperByte (c : Byte) : Byte :=
  if 0x61 ≤ c.val ∧ c.val ≤ 0x7A then c - 0x20 else c

/-- The function `strings.ToUpper` on an ASCII text. -/
def ToUpper (s : GoString) : GoString := s.map upperByte

/-! ## bson, bsontype -/

/-- The constant `bson.TypeString`. -/
def TypeString : Byte := 0x02
/-- The constant `bson.TypeBinary`. -/
def TypeBinary : Byte := 0x05
/-- The constant `bson.TypeUndefined`. -/
def TypeUndefined : Byte := 0x06
/-- The constant `bson.TypeNull`. -/
def TypeNull : Byte := 0x0A
/-- The constant `bson.TypeInt32`. -/
def TypeInt32 : Byte := 0x10

/-- The constant `bson.TypeBinaryGeneric`. -/
def TypeBinaryGeneric : Byte := 0x00
/-- The constant `bson.TypeBinaryBinaryOld`. -/
def TypeBinaryBinaryOld : Byte := 0x02
/-- The constant `bson.TypeBinaryUUID`. -/
def TypeBinaryUUID : Byte := 0x04

/-- The method `bsontype.Type.String`. -/
def bsontypeString (bt : Byte) : String :=
  if bt = 0x01 then "double"
  else if bt = 0x02 then "string"
  else if bt = 0x03 then "embedded document"
  else if bt = 0x04 then "array"
  else if bt = 0x05 then "binary"
  else if bt = 0x06 then "undefined"
  else if bt = 0x07 then "objectID"
  else if bt = 0x08 then "boolean"
  else if bt = 0x09 then "UTC datetime"
  else if bt = 0x0A then "null"
  else if bt = 0x0B then "regex"
  else if bt = 0x0C then "dbPointer"
  else if bt = 0x0D then "javascript"
  else if bt = 0x0E then "symbol"
  else if bt = 0x0F then "code with scope"
  else if bt = 0x10 then "32-bit integer"
  else if bt = 0x11 then "timestamp"
  else if bt = 0x12 then "64-bit integer"
  else if bt = 0x13 then "128-bit decimal"
  else if bt = 0xFF then "min key"
  else if bt = 0x7F then "max key"
  else "invalid"

/-! ## bsonrw -/

/-- A call made on a `bsonrw.ValueWriter`, with its arguments. -/
inductive WriteCall where
  | WriteNull
  | WriteBinaryWithSubtype (b : List Byte) (btype : Byte)
deriving DecidableEq

/-- A `bsonrw.ValueWriter`, as far as the encoder uses it: what each method returns. -/
structure ValueWriter where
  WriteNull : Option GoError
  WriteBinaryWithSubtype : List Byte → Byte → Option GoError

/-- A call made on a `bsonrw.ValueReader`: the query `Type`, or one of the four reads
that consume the value. -/
inductive ReadCall where
  | Type_
  | ReadString
  | ReadNull
  | ReadUndefined
  | ReadBinary
deriving DecidableEq

/-- A `bsonrw.ValueReader` positioned at a value, as far as the decoder uses it: the
wire type it reports and what each read returns. -/
structure ValueReader where
  Type_ : Byte
  ReadString : Except GoError GoString
  ReadNull : Option GoError
  ReadUndefined : Option GoError
  ReadBinary : Except GoError (List Byte × Byte)

/-- What a run of `UUIDEncodeValue` leaves behind: the returned error and the calls made
on the writer, in order. -/
structure EncodeResult where
  err : Option GoError
  calls : List WriteCall
deriving DecidableEq

/-- What a run of `UUIDDecodeValue` leaves behind: the returned error, the destination
after the run, the calls made on the reader, in order, and the panic the run ended in,
`none` when the function returned. When the run panicked nothing was returned: `err` is
`none`, and `val` and `calls` are the destination and the calls at the panic. -/
structure DecodeResult where
  err : Option GoError
  val : Value
  calls : List ReadCall
  panicked : Option String
deriving DecidableEq

/-- Whether a call on the reader is one of the reads `ReadString`, `ReadNull`,
`ReadUndefined`, `ReadBinary`. -/
def ReadCall.isRead : ReadCall → Bool
  | .Type_ => false
  | _ => true

/-- What the writer answers to a call. -/
def ValueWriter.answer (vw : ValueWriter) : WriteCall → Option GoError
  | .WriteNull => vw.WriteNull
  | .WriteBinaryWithSubtype b btype => vw.WriteBinaryWithSubtype b btype

/-! ## uuid.go -/

/-- The function `UUIDEncodeValue`. The case `none` of `val.Interface().(uuid.UUID)` is
not reached, the guard having returned for every value that is not of type UUID. -/
def UUIDEncodeValue (vw : ValueWriter) (val : Value) : EncodeResult :=
  if !val.IsValid || val.Type_ != some TypeUUID then
    ⟨some (GoError.ValueEncoderError "UUIDEncodeValue" [TypeUUID] val), []⟩
  else if val.IsZero then
    ⟨vw.WriteNull, [WriteCall.WriteNull]⟩
  else
    match val.Interface with
    | some u =>
      let b := u.MarshalBinary.1
      ⟨vw.WriteBinaryWithSubtype b TypeBinaryUUID,
        [WriteCall.WriteBinaryWithSubtype b TypeBinaryUUID]⟩
    | none => ⟨none, []⟩

/-- The function `UUIDDecodeValue`. The variable `err` declared before the switch is the
one returned at the end; the `err` that `:=` declares inside the string case and inside
the binary case are other variables, local to those cases. The guard looks at `IsValid`
and `Type` only, so that `val.Set` is reached on a destination that is not settable too,
where it panics. -/
def UUIDDecodeValue (vr : ValueReader) (val : Value) : DecodeResult :=
  if !val.IsValid || val.Type_ != some TypeUUID then
    ⟨some (GoError.ValueDecoderError "UUIDDecodeValue" [TypeUUID] val), val, [], none⟩
  else
    let err : Option GoError := none
    let vrType := vr.Type_
    if vrType = TypeString then
      match vr.ReadString with
      | .ok str =>
        match Parse str with
        | .ok v =>
          match val.Set (ValueOf v) with
          | some val' => ⟨err, val', [ReadCall.Type_, ReadCall.ReadString], none⟩
          | none => ⟨none, val, [ReadCall.Type_, ReadCall.ReadString], some setPanic⟩
        | .error _ => ⟨err, val, [ReadCall.Type_, ReadCall.ReadString], none⟩
      | .error _ => ⟨err, val, [ReadCall.Type_, ReadCall.ReadString], none⟩
    else if vrType = TypeNull then
      ⟨vr.ReadNull, val, [ReadCall.Type_, ReadCall.ReadNull], none⟩
    else if vrType = TypeUndefined then
      ⟨vr.ReadUndefined, val, [ReadCall.Type_, ReadCall.ReadUndefined], none⟩
    else if vrType = TypeBinary then
      match vr.ReadBinary with
      | .ok (b, bType) =>
        if bType = TypeBinaryGeneric ∨ bType = TypeBinaryUUID then
          match FromBytes b with
          | .ok v =>
            match val.Set (ValueOf v) with
            | some val' => ⟨err, val', [ReadCall.Type_, ReadCall.ReadBinary], none⟩
            | none => ⟨none, val, [ReadCall.Type_, ReadCall.ReadBinary], some setPanic⟩
          | .error _ => ⟨err, val, [ReadCall.Type_, ReadCall.ReadBinary], none⟩
        else
          ⟨some (GoError.errorString
            ("cannot decode binary type " ++ Nat.repr bType.val ++ " into a uuid")),
            val, [ReadCall.Type_, ReadCall.ReadBinary], none⟩
      | .error _ => ⟨err, val, [ReadCall.Type_, ReadCall.ReadBinary], none⟩
    else
      ⟨some (GoError.errorString
        ("cannot decode " ++ bsontypeString vrType ++ " into a uuid")), val,
        [ReadCall.Type_], none⟩

/-! ## bsoncodec.Registry and registry.go -/

/-- The type `bsoncodec.ValueEncoderFunc`, without the context argument that
`UUIDEncodeValue` ignores. -/
abbrev ValueEncoderFunc := ValueWriter → Value → EncodeResult

/-- The type `bsoncodec.ValueDecoderFunc`, without the context argument that
`UUIDDecodeValue` ignores. -/
abbrev ValueDecoderFunc := ValueReader → Value → DecodeResult

/-- A `bsoncodec.Registry`, as far as registration by type and lookup go: the codecs
registered for a type, and what a lookup falls back on for a type that has none
registered (the hook codecs and the kind codecs). -/
structure Registry where
  typeEncoders : RType → Option ValueEncoderFunc
  typeDecoders : RType → Option ValueDecoderFunc
  fallbackEncoders : RType → Option ValueEncoderFunc
  fallbackDecoders : RType → Option ValueDecoderFunc

/-- The method `Registry.RegisterTypeEncoder`: the entry of `valueType` is stored,
over the one there was. -/
def Registry.RegisterTypeEncoder (r : Registry) (valueType : RType) (enc : ValueEncoderFunc) :
    Registry :=
  { r with typeEncoders := fun t => if t = valueType then some enc else r.typeEncoders t }

/-- The method `Registry.RegisterTypeDecoder`: the entry of `valueType` is stored,
over the one there was. -/
def Registry.RegisterTypeDecoder (r : Registry) (valueType : RType) (dec : ValueDecoderFunc) :
    Registry :=
  { r with typeDecoders := fun t => if t = valueType then some dec else r.typeDecoders t }

/-- The method `Registry.LookupEncoder`: the encoder registered for the type, else the
fallback; `none` is the error `ErrNoEncoder`. -/
def Registry.LookupEncoder (r : Registry) (valueType : RType) : Option ValueEncoderFunc :=
  match r.typeEncoders valueType with
  | some enc => some enc
  | none => r.fallbackEncoders valueType

/-- The method `Registry.LookupDecoder`: the decoder registered for the type, else the
fallback; `none` is the error `ErrNoDecoder`. -/
def Registry.LookupDecoder (r : Registry) (valueType : RType) : Option ValueDecoderFunc :=
  match r.typeDecoders valueType with
  | some dec => some dec
  | none => r.fallbackDecoders valueType

/-- The function `BuildRegistry`; the registry that `bson.NewRegistry()` returns is the
argument `newRegistry`. -/
def BuildRegistry (newRegistry : Registry) : Registry :=
  let registry := newRegistry
  let registry := registry.RegisterTypeEncoder TypeUUID UUIDEncodeValue
  let registry := registry.RegisterTypeDecoder TypeUUID UUIDDecodeValue
  registry

/-! ## Fixtures

The values the tests of `uuid_test.go` run the codec on, and readers and writers in the
manner of `bsonrwtest.ValueReaderWriter`. -/

/-- The UUID `7b68db73-a514-460e-900a-b3f47bbc7eaa` of the test `encode/success`. -/
def sampleUUID : UUID :=
  ⟨[0x7b, 0x68, 0xdb, 0x73, 0xa5, 0x14, 0x46, 0x0e,
    0x90, 0x0a, 0xb3, 0xf4, 0x7b, 0xbc, 0x7e, 0xaa], rfl⟩

/-- The value `reflect.ValueOf("wrong")` of the test `encode/wrong type`. -/
def wrongValue : Value := Value.ofOther "string" "wrong"

/-- A writer each of whose methods succeeds. -/
def okWriter : ValueWriter := ⟨none, fun _ _ => none⟩

/-- The error a reader returns when asked to read another kind of value than the one it
is positioned at. -/
def transitionError : GoError := GoError.errorString "incorrect read transition"

/-- An I/O failure of the underlying stream. -/
def eofError : GoError := GoError.errorString "unexpected EOF"

/-- A reader positioned at a binary value with payload `b` and subtype `btype`. -/
def binaryReader (b : List Byte) (btype : Byte) : ValueReader :=
  ⟨TypeBinary, .error transitionError, some transitionError, some transitionError,
    .ok (b, btype)⟩

/-- A reader positioned at a string value `s`. -/
def stringReader (s : GoString) : ValueReader :=
  ⟨TypeString, .ok s, some transitionError, some transitionError, .error transitionError⟩

/-- A reader positioned at a null value. -/
def nullReader : ValueReader :=
  ⟨TypeNull, .error transitionError, none, some transitionError, .error transitionError⟩

/-- A reader that reports the wire type `t` and each of whose reads fails with `e`. -/
def failingReader (t : Byte) (e : GoError) : ValueReader :=
  ⟨t, .error e, some e, some e, .error e⟩

/-- A reader positioned at an undefined value. -/
def undefinedReader : ValueReader :=
  ⟨TypeUndefined, .error transitionError, some transitionError, none,
    .error transitionError⟩

/-- The UUID `57CCFF46-A71D-4019-AF2D-70C4BBAF28B9` of the test `decode from string`. -/
def stringTestUUID : UUID :=
  ⟨[0x57, 0xCC, 0xFF, 0x46, 0xA7, 0x1D, 0x40, 0x19,
    0xAF, 0x2D, 0x70, 0xC4, 0xBB, 0xAF, 0x28, 0xB9], rfl⟩

/-- A registry with no codec at all. -/
def emptyRegistry : Registry :=
  ⟨fun _ => none, fun _ => none, fun _ => none, fun _ => none⟩

/-! ## The failure condition of the decoder, as the specification words it -/

/-- The condition under which `UUIDDecodeValue` is said to return an error: the
destination is invalid or not of UUID type; or the wire type is null and `ReadNull`
fails; or it is undefined and `ReadUndefined` fails; or it is binary, `ReadBinary`
succeeds and the subtype is neither 0x00 nor 0x04; or it is none of string, binary,
null, undefined. -/
def statedFailureCondition (vr : ValueReader) (val : Value) : Bool :=
  (!val.IsValid || val.Type_ != some TypeUUID)
  || (vr.Type_ == 0x0A && vr.ReadNull.isSome)
  || (vr.Type_ == 0x06 && vr.ReadUndefined.isSome)
  || (vr.Type_ == 0x05 &&
      match vr.ReadBinary with
      | .ok (_, t) => t != 0x00 && t != 0x04
      | .error _ => false)
  || (vr.Type_ != 0x02 && vr.Type_ != 0x05 && vr.Type_ != 0x0A && vr.Type_ != 0x06)

/-! ## Lemmas on the primitives -/

theorem all_zero_iff_replicate (l : List Byte) :
    l.all (fun b => b == 0) = true ↔ l = List.replicate l.length 0 := by
  induction l with
  | nil => simp
  | cons a t ih =>
    simp only [List.all_cons, Bool.and_eq_true, beq_iff_eq, List.length_cons,
      List.replicate_succ, List.cons.injEq, ih]

/-- A value of type UUID is zero for `reflect` exactly when it is `uuid.UUID{}`. -/
theorem isZero_ofUUID_iff (u : UUID) : (Value.ofUUID u).IsZero = true ↔ u = UUID.zero := by
  cases u with
  | mk l h =>
    simp only [Value.IsZero, UUID.zero, UUID.mk.injEq]
    rw [all_zero_iff_replicate, h]

/-- A value that holds the UUID `v` is zero for `reflect` exactly when `v` is. -/
theorem isZero_iff (val : Value) (v : UUID)
    (hval : val = ValueOf v ∨ val = Value.ofUUID v) : val.IsZero = true ↔ v = UUID.zero := by
  rcases hval with h | h <;> subst h <;> exact isZero_ofUUID_iff v

/-- The slot takes the UUID it is set to. -/
theorem set_slot (slot v : UUID) :
    (Value.ofUUID slot).Set (ValueOf v) = some (Value.ofUUID v) := by
  simp [Value.Set, Value.CanSet, ValueOf, Value.Interface]

/-- To set a value that is not settable panics. -/
theorem set_unaddressable (u v : UUID) : (Value.unaddressable u).Set (ValueOf v) = none := by
  simp [Value.Set, Value.CanSet]

theorem fromBytes_of_length (b : List Byte) (h : b.length = 16) :
    FromBytes b = .ok ⟨b, h⟩ := by
  simp [FromBytes, h]

theorem fromBytes_of_length_ne (b : List Byte) (h : b.length ≠ 16) :
    ∃ e, FromBytes b = .error e := by
  simp [FromBytes, h]

/-! ## Lemmas on the paths of `UUIDDecodeValue` -/

theorem decode_guard_pass (u : UUID) :
    (!(Value.ofUUID u).IsValid || (Value.ofUUID u).Type_ != some TypeUUID) = false := by
  simp [Value.IsValid, Value.Type_, TypeUUID]

theorem decode_guard_pass_unaddressable (u : UUID) :
    (!(Value.unaddressable u).IsValid || (Value.unaddressable u).Type_ != some TypeUUID)
      = false := by
  simp [Value.IsValid, Value.Type_, TypeUUID]

/-- The binary path with an accepted subtype and a payload of 16 bytes. -/
theorem decode_binary_accept (vr : ValueReader) (slot : UUID) (p : List Byte) (t : Byte)
    (hty : vr.Type_ = TypeBinary) (hread : vr.ReadBinary = .ok (p, t))
    (ht : t = TypeBinaryGeneric ∨ t = TypeBinaryUUID) (hlen : p.length = 16) :
    UUIDDecodeValue vr (Value.ofUUID slot)
      = ⟨none, Value.ofUUID ⟨p, hlen⟩, [ReadCall.Type_, ReadCall.ReadBinary], none⟩ := by
  simp [UUIDDecodeValue, decode_guard_pass, hty, hread, ht, fromBytes_of_length p hlen,
    TypeBinary, TypeString, TypeNull, TypeUndefined, set_slot]

/-- The binary path with an accepted subtype and a payload of another length. -/
theorem decode_binary_badlen (vr : ValueReader) (slot : UUID) (p : List Byte) (t : Byte)
    (hty : vr.Type_ = TypeBinary) (hread : vr.ReadBinary = .ok (p, t))
    (ht : t = TypeBinaryGeneric ∨ t = TypeBinaryUUID) (hlen : p.length ≠ 16) :
    UUIDDecodeValue vr (Value.ofUUID slot)
      = ⟨none, Value.ofUUID slot, [ReadCall.Type_, ReadCall.ReadBinary], none⟩ := by
  obtain ⟨e, he⟩ := fromBytes_of_length_ne p hlen
  simp [UUIDDecodeValue, decode_guard_pass, hty, hread, ht, he,
    TypeBinary, TypeString, TypeNull, TypeUndefined]

/-- The binary path with a subtype that is not accepted. -/
theorem decode_binary_reject (vr : ValueReader) (slot : UUID) (p : List Byte) (t : Byte)
    (hty : vr.Type_ = TypeBinary) (hread : vr.ReadBinary = .ok (p, t))
    (h0 : t ≠ TypeBinaryGeneric) (h4 : t ≠ TypeBinaryUUID) :
    UUIDDecodeValue vr (Value.ofUUID slot)
      = ⟨some (GoError.errorString
          ("cannot decode binary type " ++ Nat.repr t.val ++ " into a uuid")),
        Value.ofUUID slot, [ReadCall.Type_, ReadCall.ReadBinary], none⟩ := by
  simp [UUIDDecodeValue, decode_guard_pass, hty, hread, h0, h4,
    TypeBinary, TypeString, TypeNull, TypeUndefined]

/-- The binary path when `ReadBinary` fails. -/
theorem decode_binary_readfail (vr : ValueReader) (slot : UUID) (e : GoError)
    (hty : vr.Type_ = TypeBinary) (hread : vr.ReadBinary = .error e) :
    UUIDDecodeValue vr (Value.ofUUID slot)
      = ⟨none, Value.ofUUID slot, [ReadCall.Type_, ReadCall.ReadBinary], none⟩ := by
  simp [UUIDDecodeValue, decode_guard_pass, hty, hread,
    TypeBinary, TypeString, TypeNull, TypeUndefined]

/-- The string path when `ReadString` fails. -/
theorem decode_string_readfail (vr : ValueReader) (slot : UUID) (e : GoError)
    (hty : vr.Type_ = TypeString) (hread : vr.ReadString = .error e) :
    UUIDDecodeValue vr (Value.ofUUID slot)
      = ⟨none, Value.ofUUID slot, [ReadCall.Type_, ReadCall.ReadString], none⟩ := by
  simp [UUIDDecodeValue, decode_guard_pass, hty, hread]

/-- The string path when the string does not parse. -/
theorem decode_string_parsefail (vr : ValueReader) (slot : UUID) (s : GoString) (e : GoError)
    (hty : vr.Type_ = TypeString) (hread : vr.ReadString = .ok s)
    (hparse : Parse s = .error e) :
    UUIDDecodeValue vr (Value.ofUUID slot)
      = ⟨none, Value.ofUUID slot, [ReadCall.Type_, ReadCall.ReadString], none⟩ := by
  simp [UUIDDecodeValue, decode_guard_pass, hty, hread, hparse]

/-- The null path. -/
theorem decode_null (vr : ValueReader) (slot : UUID) (hty : vr.Type_ = TypeNull) :
    UUIDDecodeValue vr (Value.ofUUID slot)
      = ⟨vr.ReadNull, Value.ofUUID slot, [ReadCall.Type_, ReadCall.ReadNull], none⟩ := by
  simp [UUIDDecodeValue, decode_guard_pass, hty, TypeNull, TypeString]

/-- The undefined path. -/
theorem decode_undefined (vr : ValueReader) (slot : UUID) (hty : vr.Type_ = TypeUndefined) :
    UUIDDecodeValue vr (Value.ofUUID slot)
      = ⟨vr.ReadUndefined, Value.ofUUID slot, [ReadCall.Type_, ReadCall.ReadUndefined], none⟩ := by
  simp [UUIDDecodeValue, decode_guard_pass, hty, TypeNull, TypeString, TypeUndefined]

/-- The encoder on a value that holds a UUID that is not zero. -/
theorem encode_nonzero (vw : ValueWriter) (val : Value) (v : UUID)
    (hval : val = ValueOf v ∨ val = Value.ofUUID v) (hv : v ≠ UUID.zero) :
    UUIDEncodeValue vw val
      = ⟨vw.WriteBinaryWithSubtype v.bytes TypeBinaryUUID,
          [WriteCall.WriteBinaryWithSubtype v.bytes TypeBinaryUUID]⟩ := by
  have hz : val.IsZero = false := by
    rw [Bool.eq_false_iff]
    intro h
    exact hv ((isZero_iff val v hval).mp h)
  rcases hval with h | h <;> subst h
  · simp [UUIDEncodeValue, ValueOf, decode_guard_pass_unaddressable, Value.Interface,
      UUID.MarshalBinary] at hz ⊢
    simp [hz]
  · simp [UUIDEncodeValue, decode_guard_pass, Value.Interface, UUID.MarshalBinary] at hz ⊢
    simp [hz]

/-- The encoder on a value that holds the zero UUID. -/
theorem encode_zero (vw : ValueWriter) (val : Value)
    (hval : val = ValueOf UUID.zero ∨ val = Value.ofUUID UUID.zero) :
    UUIDEncodeValue vw val = ⟨vw.WriteNull, [WriteCall.WriteNull]⟩ := by
  have hz : val.IsZero = true := (isZero_iff val UUID.zero hval).mpr rfl
  rcases hval with h | h <;> subst h
  · simp [UUIDEncodeValue, ValueOf, decode_guard_pass_unaddressable] at hz ⊢
    simp [hz]
  · simp [UUIDEncodeValue, decode_guard_pass] at hz ⊢
    simp [hz]

/-! ## The encoder and the decoder together -/

/-- C1: round trip. For a UUID `v` that is not zero and any writer, the encoder records
exactly one call, a binary write of some payload `b` with some subtype `t`; and whatever
the destination slot held, a reader positioned at a binary value whose read succeeds with
that `b` and `t` makes the decoder return, with no error, and leave `v` in the slot. -/
theorem roundtrip_nonzero (vw : ValueWriter) (v slot : UUID) (hv : v ≠ UUID.zero) :
    ∃ b t, (UUIDEncodeValue vw (ValueOf v)).calls = [WriteCall.WriteBinaryWithSubtype b t] ∧
      ∀ vr : ValueReader, vr.Type_ = TypeBinary → vr.ReadBinary = .ok (b, t) →
        (UUIDDecodeValue vr (Value.ofUUID slot)).err = none ∧
        (UUIDDecodeValue vr (Value.ofUUID slot)).panicked = none ∧
        (UUIDDecodeValue vr (Value.ofUUID slot)).val = Value.ofUUID v := by
  refine ⟨v.bytes, TypeBinaryUUID, ?_, ?_⟩
  · rw [encode_nonzero vw (ValueOf v) v (Or.inl rfl) hv]
  · intro vr hty hread
    rw [decode_binary_accept vr slot v.bytes TypeBinaryUUID hty hread (Or.inr rfl) v.size_eq]
    exact ⟨rfl, rfl, rfl⟩

theorem roundtrip_nonzero_witness :
    sampleUUID ≠ UUID.zero ∧
    ∃ b t, (UUIDEncodeValue okWriter (ValueOf sampleUUID)).calls
        = [WriteCall.WriteBinaryWithSubtype b t] ∧
      ∀ vr : ValueReader, vr.Type_ = TypeBinary → vr.ReadBinary = .ok (b, t) →
        (UUIDDecodeValue vr (Value.ofUUID UUID.zero)).err = none ∧
        (UUIDDecodeValue vr (Value.ofUUID UUID.zero)).panicked = none ∧
        (UUIDDecodeValue vr (Value.ofUUID UUID.zero)).val = Value.ofUUID sampleUUID :=
  ⟨by decide, roundtrip_nonzero okWriter sampleUUID UUID.zero (by decide)⟩

/-- C2: zero fixed point. On the zero UUID the encoder makes one call, `WriteNull`, and
no binary write; on a null value whose read succeeds, with a slot that holds the zero
UUID, the decoder returns, with no error, and the slot still holds the zero UUID. -/
theorem zero_fixed_point (vw : ValueWriter) (vr : ValueReader)
    (hty : vr.Type_ = TypeNull) (hread : vr.ReadNull = none) :
    (UUIDEncodeValue vw (ValueOf UUID.zero)).calls = [WriteCall.WriteNull] ∧
    (∀ b t, WriteCall.WriteBinaryWithSubtype b t ∉
      (UUIDEncodeValue vw (ValueOf UUID.zero)).calls) ∧
    (UUIDDecodeValue vr (Value.ofUUID UUID.zero)).err = none ∧
    (UUIDDecodeValue vr (Value.ofUUID UUID.zero)).panicked = none ∧
    (UUIDDecodeValue vr (Value.ofUUID UUID.zero)).val = Value.ofUUID UUID.zero := by
  rw [encode_zero vw (ValueOf UUID.zero) (Or.inl rfl), decode_null vr UUID.zero hty, hread]
  simp

theorem zero_fixed_point_witness :
    nullReader.Type_ = TypeNull ∧ nullReader.ReadNull = none ∧
    (UUIDEncodeValue okWriter (ValueOf UUID.zero)).calls = [WriteCall.WriteNull] ∧
    (∀ b t, WriteCall.WriteBinaryWithSubtype b t ∉
      (UUIDEncodeValue okWriter (ValueOf UUID.zero)).calls) ∧
    (UUIDDecodeValue nullReader (Value.ofUUID UUID.zero)).err = none ∧
    (UUIDDecodeValue nullReader (Value.ofUUID UUID.zero)).panicked = none ∧
    (UUIDDecodeValue nullReader (Value.ofUUID UUID.zero)).val = Value.ofUUID UUID.zero :=
  ⟨rfl, rfl, zero_fixed_point okWriter nullReader rfl rfl⟩

/-! ## The encoder -/

/-- C3: for a UUID `v` that is not zero, passed as `reflect.ValueOf(v)` or as a settable
value that holds `v`, the encoder makes exactly one call on the writer,
`WriteBinaryWithSubtype`, with the 16 bytes of `v` in order as payload and with subtype
0x04; it makes no `WriteNull` call. -/
theorem encode_nonzero_writes_binary (vw : ValueWriter) (v : UUID) (hv : v ≠ UUID.zero) :
    (UUIDEncodeValue vw (ValueOf v)).calls = [WriteCall.WriteBinaryWithSubtype v.bytes 0x04] ∧
    v.bytes.length = 16 ∧
    WriteCall.WriteNull ∉ (UUIDEncodeValue vw (ValueOf v)).calls ∧
    (UUIDEncodeValue vw (Value.ofUUID v)).calls
      = [WriteCall.WriteBinaryWithSubtype v.bytes 0x04] := by
  rw [encode_nonzero vw (ValueOf v) v (Or.inl rfl) hv,
    encode_nonzero vw (Value.ofUUID v) v (Or.inr rfl) hv]
  simp [TypeBinaryUUID, v.size_eq]

theorem encode_nonzero_writes_binary_witness :
    sampleUUID ≠ UUID.zero ∧
    (UUIDEncodeValue okWriter (ValueOf sampleUUID)).calls
      = [WriteCall.WriteBinaryWithSubtype sampleUUID.bytes 0x04] ∧
    sampleUUID.bytes.length = 16 ∧
    WriteCall.WriteNull ∉ (UUIDEncodeValue okWriter (ValueOf sampleUUID)).calls ∧
    (UUIDEncodeValue okWriter (Value.ofUUID sampleUUID)).calls
      = [WriteCall.WriteBinaryWithSubtype sampleUUID.bytes 0x04] :=
  ⟨by decide, encode_nonzero_writes_binary okWriter sampleUUID (by decide)⟩

/-! ## The decoder -/

/-- C4: for a payload `p` of 16 bytes (the zero payload too), subtype 0x00 or 0x04, any
content of the slot, and a reader positioned at a binary value whose `ReadBinary`
succeeds with `p` and that subtype, the decoder returns, with no error, and the slot
holds the UUID whose bytes are those of `p`, byte for byte. -/
theorem decode_binary_sets_slot (vr : ValueReader) (slot : UUID) (p : List Byte) (t : Byte)
    (hlen : p.length = 16) (ht : t = 0x00 ∨ t = 0x04)
    (hty : vr.Type_ = 0x05) (hread : vr.ReadBinary = .ok (p, t)) :
    (UUIDDecodeValue vr (Value.ofUUID slot)).err = none ∧
    (UUIDDecodeValue vr (Value.ofUUID slot)).panicked = none ∧
    ∃ u : UUID, (UUIDDecodeValue vr (Value.ofUUID slot)).val = Value.ofUUID u ∧
      u.bytes = p ∧ ∀ i, i < 16 → u.bytes.get? i = p.get? i := by
  rw [decode_binary_accept vr slot p t hty hread ht hlen]
  exact ⟨rfl, rfl, ⟨p, hlen⟩, rfl, rfl, fun _ _ => rfl⟩

theorem decode_binary_sets_slot_witness :
    (List.replicate 16 (0 : Byte)).length = 16 ∧
    (binaryReader (List.replicate 16 0) 0x00).Type_ = 0x05 ∧
    (UUIDDecodeValue (binaryReader (List.replicate 16 0) 0x00) (Value.ofUUID sampleUUID)).err
      = none ∧
    (UUIDDecodeValue (binaryReader (List.replicate 16 0) 0x00)
      (Value.ofUUID sampleUUID)).panicked = none ∧
    ∃ u : UUID, (UUIDDecodeValue (binaryReader (List.replicate 16 0) 0x00)
        (Value.ofUUID sampleUUID)).val = Value.ofUUID u ∧
      u.bytes = List.replicate 16 0 ∧
      ∀ i, i < 16 → u.bytes.get? i = (List.replicate 16 (0 : Byte)).get? i :=
  ⟨rfl, rfl, decode_binary_sets_slot (binaryReader (List.replicate 16 0) 0x00) sampleUUID
    (List.replicate 16 0) 0x00 rfl (Or.inl rfl) rfl rfl⟩

/-- C5: the generic and the UUID subtype decode alike. For every destination, every
outcome `r` of `ReadBinary` (a payload of any length, or a failure), a reader positioned
at a binary value that answers `r` with subtype 0x00 and one that answers `r` with
subtype 0x04 give the same run of the decoder: same error, same slot, same calls. -/
theorem decode_generic_eq_uuid_subtype (vr : ValueReader) (val : Value)
    (r : Except GoError (List Byte)) :
    UUIDDecodeValue { vr with Type_ := 0x05, ReadBinary := r.map (fun p => (p, 0x00)) } val
      = UUIDDecodeValue
          { vr with Type_ := 0x05, ReadBinary := r.map (fun p => (p, 0x04)) } val := by
  cases r <;>
    simp [UUIDDecodeValue, Except.map, TypeBinary, TypeString, TypeNull, TypeUndefined,
      TypeBinaryGeneric, TypeBinaryUUID]

/-- C6: for a binary value whose subtype `t` is neither 0x00 nor 0x04, whatever the
payload, when `ReadBinary` succeeds the decoder fails with the message
"cannot decode binary type <n> into a uuid", `n` being `t` in decimal; for
subtype 0x02 the message is "cannot decode binary type 2 into a uuid". -/
theorem decode_rejects_other_subtype (vr : ValueReader) (slot : UUID) (p : List Byte)
    (t : Byte) (h0 : t ≠ 0x00) (h4 : t ≠ 0x04)
    (hty : vr.Type_ = 0x05) (hread : vr.ReadBinary = .ok (p, t)) :
    (UUIDDecodeValue vr (Value.ofUUID slot)).err
      = some (GoError.errorString
          ("cannot decode binary type " ++ Nat.repr t.val ++ " into a uuid")) ∧
    (t = 0x02 → (UUIDDecodeValue vr (Value.ofUUID slot)).err
      = some (GoError.errorString "cannot decode binary type 2 into a uuid")) := by
  rw [decode_binary_reject vr slot p t hty hread h0 h4]
  refine ⟨rfl, ?_⟩
  intro h2
  subst h2
  rfl

theorem decode_rejects_other_subtype_witness :
    (0x02 : Byte) ≠ 0x00 ∧ (0x02 : Byte) ≠ 0x04 ∧
    (UUIDDecodeValue (binaryReader sampleUUID.bytes 0x02) (Value.ofUUID UUID.zero)).err
      = some (GoError.errorString
          ("cannot decode binary type " ++ Nat.repr (0x02 : Byte).val ++ " into a uuid")) ∧
    ((0x02 : Byte) = 0x02 →
      (UUIDDecodeValue (binaryReader sampleUUID.bytes 0x02) (Value.ofUUID UUID.zero)).err
        = some (GoError.errorString "cannot decode binary type 2 into a uuid")) :=
  ⟨by decide, by decide,
    decode_rejects_other_subtype (binaryReader sampleUUID.bytes 0x02) UUID.zero
      sampleUUID.bytes 0x02 (by decide) (by decide) rfl rfl⟩

/-- C7: for a wire type `t` other than string, binary, null and undefined the decoder
fails with the message "cannot decode <name of t> into a uuid", the name being what
`bsontype.Type.String` gives; for the 32-bit integer type (0x10) the message is
"cannot decode 32-bit integer into a uuid". -/
theorem decode_rejects_other_wire_type (vr : ValueReader) (slot : UUID)
    (hs : vr.Type_ ≠ 0x02) (hb : vr.Type_ ≠ 0x05) (hn : vr.Type_ ≠ 0x0A)
    (hu : vr.Type_ ≠ 0x06) :
    (UUIDDecodeValue vr (Value.ofUUID slot)).err
      = some (GoError.errorString
          ("cannot decode " ++ bsontypeString vr.Type_ ++ " into a uuid")) ∧
    (vr.Type_ = 0x10 → (UUIDDecodeValue vr (Value.ofUUID slot)).err
      = some (GoError.errorString "cannot decode 32-bit integer into a uuid")) := by
  have h : UUIDDecodeValue vr (Value.ofUUID slot)
      = ⟨some (GoError.errorString
          ("cannot decode " ++ bsontypeString vr.Type_ ++ " into a uuid")),
        Value.ofUUID slot, [ReadCall.Type_], none⟩ := by
    simp [UUIDDecodeValue, decode_guard_pass, hs, hb, hn, hu,
      TypeBinary, TypeString, TypeNull, TypeUndefined]
  rw [h]
  refine ⟨rfl, ?_⟩
  intro h16
  rw [h16]
  rfl

theorem decode_rejects_other_wire_type_witness :
    (failingReader TypeInt32 eofError).Type_ ≠ 0x02 ∧
    (failingReader TypeInt32 eofError).Type_ ≠ 0x05 ∧
    (failingReader TypeInt32 eofError).Type_ ≠ 0x0A ∧
    (failingReader TypeInt32 eofError).Type_ ≠ 0x06 ∧
    (UUIDDecodeValue (failingReader TypeInt32 eofError) (Value.ofUUID UUID.zero)).err
      = some (GoError.errorString
          ("cannot decode " ++ bsontypeString (failingReader TypeInt32 eofError).Type_
            ++ " into a uuid")) ∧
    ((failingReader TypeInt32 eofError).Type_ = 0x10 →
      (UUIDDecodeValue (failingReader TypeInt32 eofError) (Value.ofUUID UUID.zero)).err
        = some (GoError.errorString "cannot decode 32-bit integer into a uuid")) :=
  ⟨by decide, by decide, by decide, by decide,
    decode_rejects_other_wire_type (failingReader TypeInt32 eofError) UUID.zero
      (by decide) (by decide) (by decide) (by decide)⟩

/-- C8: for a value that is invalid, or whose type is not the UUID type, the encoder
returns a `ValueEncoderError` with Name "UUIDEncodeValue", Types the list of the UUID
type alone and Received the value passed, and it makes no call on the writer. -/
theorem encode_rejects_wrong_type (vw : ValueWriter) (val : Value)
    (h : val.IsValid = false ∨ val.Type_ ≠ some TypeUUID) :
    (UUIDEncodeValue vw val).err
      = some (GoError.ValueEncoderError "UUIDEncodeValue" [TypeUUID] val) ∧
    (UUIDEncodeValue vw val).calls = [] := by
  have hg : (!val.IsValid || val.Type_ != some TypeUUID) = true := by
    rcases h with h | h
    · simp [h]
    · simp [h]
  simp [UUIDEncodeValue, hg]

theorem encode_rejects_wrong_type_witness :
    (wrongValue.IsValid = false ∨ wrongValue.Type_ ≠ some TypeUUID) ∧
    (UUIDEncodeValue okWriter wrongValue).err
      = some (GoError.ValueEncoderError "UUIDEncodeValue" [TypeUUID] wrongValue) ∧
    (UUIDEncodeValue okWriter wrongValue).calls = [] :=
  ⟨Or.inr (by decide), encode_rejects_wrong_type okWriter wrongValue (Or.inr (by decide))⟩

/-- C9, as the code runs: with a slot that holds the sample UUID, on a binary value of
subtype 0x04 (and of subtype 0x00) whose payload has 3 bytes, and on the string
"wrong", which `uuid.Parse` refuses, the decoder leaves the slot as it was and
returns nil, not an error. -/
theorem decode_malformed_returns_nil :
    UUIDDecodeValue (binaryReader [1, 2, 3] 0x04) (Value.ofUUID sampleUUID)
      = ⟨none, Value.ofUUID sampleUUID, [ReadCall.Type_, ReadCall.ReadBinary], none⟩ ∧
    UUIDDecodeValue (binaryReader [1, 2, 3] 0x00) (Value.ofUUID sampleUUID)
      = ⟨none, Value.ofUUID sampleUUID, [ReadCall.Type_, ReadCall.ReadBinary], none⟩ ∧
    Parse (GoString.ofString "wrong") = .error (GoError.invalidLengthError 5) ∧
    UUIDDecodeValue (stringReader (GoString.ofString "wrong")) (Value.ofUUID sampleUUID)
      = ⟨none, Value.ofUUID sampleUUID, [ReadCall.Type_, ReadCall.ReadString], none⟩ := by
  refine ⟨?_, ?_, rfl, ?_⟩
  · exact decode_binary_badlen _ _ [1, 2, 3] 0x04 rfl rfl (Or.inr rfl) (by decide)
  · exact decode_binary_badlen _ _ [1, 2, 3] 0x00 rfl rfl (Or.inl rfl) (by decide)
  · exact decode_string_parsefail _ _ (GoString.ofString "wrong") _ rfl rfl rfl

/-- C10, as the code runs: when the reader reports a string and `ReadString` fails with
an error `e`, or reports a binary and `ReadBinary` fails with `e`, the decoder returns
nil, not `e`; when it reports null or undefined and `ReadNull` or `ReadUndefined` fails
with `e`, the decoder returns `e`. -/
theorem decode_read_failure_results :
    (UUIDDecodeValue (failingReader TypeString eofError) (Value.ofUUID sampleUUID)).err
      = none ∧
    (UUIDDecodeValue (failingReader TypeBinary eofError) (Value.ofUUID sampleUUID)).err
      = none ∧
    (UUIDDecodeValue (failingReader TypeNull eofError) (Value.ofUUID sampleUUID)).err
      = some eofError ∧
    (UUIDDecodeValue (failingReader TypeUndefined eofError) (Value.ofUUID sampleUUID)).err
      = some eofError := by
  refine ⟨?_, ?_, ?_, ?_⟩
  · rw [decode_string_readfail _ _ eofError rfl rfl]
  · rw [decode_binary_readfail _ _ eofError rfl rfl]
  · rw [decode_null _ _ rfl]; rfl
  · rw [decode_undefined _ _ rfl]; rfl

/-! ## More lemmas: hexadecimal text, the guard, the string path -/

set_option maxRecDepth 100000 in
/-- Two lower-case digits written by `hex.Encode` are read back by `xtob`. -/
theorem xtob_hextable (b : Byte) :
    xtob (hextable (b.val >>> 4)) (hextable (b.val &&& 0x0f)) = (b, true) := by
  revert b; decide

set_option maxRecDepth 100000 in
/-- The same two digits in upper case are read back by `xtob`. -/
theorem xtob_hextable_upper (b : Byte) :
    xtob (upperByte (hextable (b.val >>> 4))) (upperByte (hextable (b.val &&& 0x0f)))
      = (b, true) := by
  revert b; decide

theorem upperByte_hyphen : upperByte 0x2D = 0x2D := by decide

theorem bytes_of_length_16 (l : List Byte) (h : l.length = 16) :
    ∃ b0 b1 b2 b3 b4 b5 b6 b7 b8 b9 b10 b11 b12 b13 b14 b15 : Byte,
      l = [b0, b1, b2, b3, b4, b5, b6, b7, b8, b9, b10, b11, b12, b13, b14, b15] := by
  match l, h with
  | [b0, b1, b2, b3, b4, b5, b6, b7, b8, b9, b10, b11, b12, b13, b14, b15], _ =>
    exact ⟨b0, b1, b2, b3, b4, b5, b6, b7, b8, b9, b10, b11, b12, b13, b14, b15, rfl⟩

/-- The function `uuid.Parse` reads the canonical lower-case text of a UUID back. -/
theorem parse_String (v : UUID) : Parse v.String_ = .ok v := by
  obtain ⟨l, h⟩ := v
  obtain ⟨b0, b1, b2, b3, b4, b5, b6, b7, b8, b9, b10, b11, b12, b13, b14, b15, rfl⟩ :=
    bytes_of_length_16 l h
  simp [Parse, UUID.String_, hexEncode, parseHyphenated, byteAt, hyphenatedPositions,
    List.enum, List.enumFrom, parseLoop, xtob_hextable, UUID.set, UUID.zero, List.replicate]

/-- The function `uuid.Parse` reads the canonical text in upper case back. -/
theorem parse_ToUpper_String (v : UUID) : Parse (ToUpper v.String_) = .ok v := by
  obtain ⟨l, h⟩ := v
  obtain ⟨b0, b1, b2, b3, b4, b5, b6, b7, b8, b9, b10, b11, b12, b13, b14, b15, rfl⟩ :=
    bytes_of_length_16 l h
  simp [Parse, ToUpper, UUID.String_, hexEncode, parseHyphenated, byteAt,
    hyphenatedPositions, List.enum, List.enumFrom, parseLoop, xtob_hextable_upper,
    upperByte_hyphen, UUID.set, UUID.zero, List.replicate]

/-- The guard of the decoder: a destination that is invalid or not of UUID type. -/
theorem decode_guard_fail (vr : ValueReader) (val : Value)
    (h : val.IsValid = false ∨ val.Type_ ≠ some TypeUUID) :
    UUIDDecodeValue vr val
      = ⟨some (GoError.ValueDecoderError "UUIDDecodeValue" [TypeUUID] val), val, [], none⟩ := by
  have hg : (!val.IsValid || val.Type_ != some TypeUUID) = true := by
    rcases h with h | h
    · simp [h]
    · simp [h]
  simp [UUIDDecodeValue, hg]

/-- A destination either fails the guard, or is a settable slot of UUID type, or is a
value of UUID type that is not settable. -/
theorem value_guard_cases (val : Value) :
    (val.IsValid = false ∨ val.Type_ ≠ some TypeUUID) ∨ (∃ slot, val = Value.ofUUID slot)
      ∨ ∃ u, val = Value.unaddressable u := by
  cases val with
  | invalid => exact Or.inl (Or.inl rfl)
  | ofUUID u => exact Or.inr (Or.inl ⟨u, rfl⟩)
  | ofOther n c => exact Or.inl (Or.inr (by simp [Value.Type_, TypeUUID]))
  | unaddressable u => exact Or.inr (Or.inr ⟨u, rfl⟩)

/-- The string path when the string parses. -/
theorem decode_string_accept (vr : ValueReader) (slot v : UUID) (s : GoString)
    (hty : vr.Type_ = TypeString) (hread : vr.ReadString = .ok s)
    (hparse : Parse s = .ok v) :
    UUIDDecodeValue vr (Value.ofUUID slot)
      = ⟨none, Value.ofUUID v, [ReadCall.Type_, ReadCall.ReadString], none⟩ := by
  simp [UUIDDecodeValue, decode_guard_pass, hty, hread, hparse, set_slot]

/-- The path of a wire type that is none of string, null, undefined, binary. -/
theorem decode_other_wire_type (vr : ValueReader) (slot : UUID)
    (hs : vr.Type_ ≠ TypeString) (hn : vr.Type_ ≠ TypeNull)
    (hu : vr.Type_ ≠ TypeUndefined) (hb : vr.Type_ ≠ TypeBinary) :
    UUIDDecodeValue vr (Value.ofUUID slot)
      = ⟨some (GoError.errorString
          ("cannot decode " ++ bsontypeString vr.Type_ ++ " into a uuid")),
        Value.ofUUID slot, [ReadCall.Type_], none⟩ := by
  simp [UUIDDecodeValue, decode_guard_pass, hs, hb, hn, hu]

/-- On a destination of UUID type that is not settable the decoder returns the same
error and makes the same calls as on a slot, and the destination is as it was. -/
theorem decode_unaddressable_fields (vr : ValueReader) (u : UUID) :
    (UUIDDecodeValue vr (Value.unaddressable u)).err = (UUIDDecodeValue vr (Value.ofUUID u)).err ∧
    (UUIDDecodeValue vr (Value.unaddressable u)).calls
      = (UUIDDecodeValue vr (Value.ofUUID u)).calls ∧
    (UUIDDecodeValue vr (Value.unaddressable u)).val = Value.unaddressable u := by
  simp only [UUIDDecodeValue, decode_guard_pass, decode_guard_pass_unaddressable, set_slot,
    set_unaddressable]
  split_ifs <;> (repeat' split) <;> simp_all

/-- On a settable slot the decoder does not panic. -/
theorem decode_slot_panicked (vr : ValueReader) (slot : UUID) :
    (UUIDDecodeValue vr (Value.ofUUID slot)).panicked = none := by
  simp only [UUIDDecodeValue, decode_guard_pass, set_slot]
  split_ifs <;> (repeat' split) <;> simp_all

/-- On a destination of UUID type that is not settable the decoder panics exactly when
it reaches `val.Set`: on a string that parses and on a payload of 16 bytes with an
accepted subtype. -/
theorem decode_unaddressable_panicked_iff (vr : ValueReader) (u : UUID) :
    (UUIDDecodeValue vr (Value.unaddressable u)).panicked ≠ none ↔
      (vr.Type_ = TypeString ∧ ∃ s v, vr.ReadString = .ok s ∧ Parse s = .ok v) ∨
      (vr.Type_ = TypeBinary ∧ ∃ p t, vr.ReadBinary = .ok (p, t) ∧
        (t = TypeBinaryGeneric ∨ t = TypeBinaryUUID) ∧ p.length = 16) := by
  by_cases hs : vr.Type_ = TypeString
  · cases hr : vr.ReadString with
    | error e => simp [UUIDDecodeValue, decode_guard_pass_unaddressable, TypeString, TypeBinary,
          TypeNull, TypeUndefined, hs, hr]
    | ok str =>
      cases hp : Parse str with
      | error e => simp [UUIDDecodeValue, decode_guard_pass_unaddressable, TypeString, TypeBinary,
          TypeNull, TypeUndefined, hs, hr, hp]
      | ok v =>
        simp [UUIDDecodeValue, decode_guard_pass_unaddressable, TypeString, TypeBinary,
          TypeNull, TypeUndefined, hs, hr, hp,
          set_unaddressable]
  · by_cases hn : vr.Type_ = TypeNull
    · simp [UUIDDecodeValue, decode_guard_pass_unaddressable, TypeString, TypeBinary,
          TypeNull, TypeUndefined, hs, hn]
    · by_cases hu : vr.Type_ = TypeUndefined
      · simp [UUIDDecodeValue, decode_guard_pass_unaddressable, TypeString, TypeBinary,
          TypeNull, TypeUndefined, hs, hn, hu]
      · by_cases hb : vr.Type_ = TypeBinary
        · cases hr : vr.ReadBinary with
          | error e =>
            simp [UUIDDecodeValue, decode_guard_pass_unaddressable, TypeString, TypeBinary,
          TypeNull, TypeUndefined, hs, hn, hu, hb, hr]
          | ok pt =>
            obtain ⟨p, t⟩ := pt
            by_cases ht : t = TypeBinaryGeneric ∨ t = TypeBinaryUUID
            · by_cases hlen : p.length = 16
              · simp [UUIDDecodeValue, decode_guard_pass_unaddressable, TypeString, TypeBinary,
          TypeNull, TypeUndefined, hs, hn, hu, hb, hr,
                  ht, hlen, fromBytes_of_length p hlen, set_unaddressable]
                exact ⟨p, t, ⟨rfl, rfl⟩, ht, hlen⟩
              · obtain ⟨e, he⟩ := fromBytes_of_length_ne p hlen
                simp [UUIDDecodeValue, decode_guard_pass_unaddressable, TypeString, TypeBinary,
          TypeNull, TypeUndefined, hs, hn, hu, hb, hr,
                  ht, hlen, he]
            · simp [UUIDDecodeValue, decode_guard_pass_unaddressable, TypeString, TypeBinary,
          TypeNull, TypeUndefined, hs, hn, hu, hb, hr, ht]
        · simp [UUIDDecodeValue, decode_guard_pass_unaddressable, hs, hn, hu, hb]

/-- Every run of the decoder on a slot of UUID type is one of ten paths. -/
theorem decode_paths (vr : ValueReader) (slot : UUID) :
    (vr.Type_ = TypeString ∧ ∃ e, vr.ReadString = .error e ∧
      UUIDDecodeValue vr (Value.ofUUID slot)
        = ⟨none, Value.ofUUID slot, [ReadCall.Type_, ReadCall.ReadString], none⟩)
    ∨ (vr.Type_ = TypeString ∧ ∃ s e, vr.ReadString = .ok s ∧ Parse s = .error e ∧
      UUIDDecodeValue vr (Value.ofUUID slot)
        = ⟨none, Value.ofUUID slot, [ReadCall.Type_, ReadCall.ReadString], none⟩)
    ∨ (vr.Type_ = TypeString ∧ ∃ s v, vr.ReadString = .ok s ∧ Parse s = .ok v ∧
      UUIDDecodeValue vr (Value.ofUUID slot)
        = ⟨none, Value.ofUUID v, [ReadCall.Type_, ReadCall.ReadString], none⟩)
    ∨ (vr.Type_ = TypeNull ∧
      UUIDDecodeValue vr (Value.ofUUID slot)
        = ⟨vr.ReadNull, Value.ofUUID slot, [ReadCall.Type_, ReadCall.ReadNull], none⟩)
    ∨ (vr.Type_ = TypeUndefined ∧
      UUIDDecodeValue vr (Value.ofUUID slot)
        = ⟨vr.ReadUndefined, Value.ofUUID slot, [ReadCall.Type_, ReadCall.ReadUndefined], none⟩)
    ∨ (vr.Type_ = TypeBinary ∧ ∃ e, vr.ReadBinary = .error e ∧
      UUIDDecodeValue vr (Value.ofUUID slot)
        = ⟨none, Value.ofUUID slot, [ReadCall.Type_, ReadCall.ReadBinary], none⟩)
    ∨ (vr.Type_ = TypeBinary ∧ ∃ p t, vr.ReadBinary = .ok (p, t) ∧
      (t = TypeBinaryGeneric ∨ t = TypeBinaryUUID) ∧ p.length ≠ 16 ∧
      UUIDDecodeValue vr (Value.ofUUID slot)
        = ⟨none, Value.ofUUID slot, [ReadCall.Type_, ReadCall.ReadBinary], none⟩)
    ∨ (vr.Type_ = TypeBinary ∧ ∃ p t, ∃ hlen : p.length = 16, vr.ReadBinary = .ok (p, t) ∧
      (t = TypeBinaryGeneric ∨ t = TypeBinaryUUID) ∧
      UUIDDecodeValue vr (Value.ofUUID slot)
        = ⟨none, Value.ofUUID ⟨p, hlen⟩, [ReadCall.Type_, ReadCall.ReadBinary], none⟩)
    ∨ (vr.Type_ = TypeBinary ∧ ∃ p t, vr.ReadBinary = .ok (p, t) ∧
      t ≠ TypeBinaryGeneric ∧ t ≠ TypeBinaryUUID ∧
      UUIDDecodeValue vr (Value.ofUUID slot)
        = ⟨some (GoError.errorString
            ("cannot decode binary type " ++ Nat.repr t.val ++ " into a uuid")),
          Value.ofUUID slot, [ReadCall.Type_, ReadCall.ReadBinary], none⟩)
    ∨ (vr.Type_ ≠ TypeString ∧ vr.Type_ ≠ TypeNull ∧ vr.Type_ ≠ TypeUndefined ∧
      vr.Type_ ≠ TypeBinary ∧
      UUIDDecodeValue vr (Value.ofUUID slot)
        = ⟨some (GoError.errorString
            ("cannot decode " ++ bsontypeString vr.Type_ ++ " into a uuid")),
          Value.ofUUID slot, [ReadCall.Type_], none⟩) := by
  by_cases hs : vr.Type_ = TypeString
  · cases hr : vr.ReadString with
    | error e => exact Or.inl ⟨hs, e, rfl, decode_string_readfail vr slot e hs hr⟩
    | ok str =>
      cases hp : Parse str with
      | error e =>
        exact Or.inr (Or.inl ⟨hs, str, e, rfl, hp, decode_string_parsefail vr slot str e hs hr hp⟩)
      | ok v =>
        exact Or.inr (Or.inr (Or.inl
          ⟨hs, str, v, rfl, hp, decode_string_accept vr slot v str hs hr hp⟩))
  · by_cases hn : vr.Type_ = TypeNull
    · exact Or.inr (Or.inr (Or.inr (Or.inl ⟨hn, decode_null vr slot hn⟩)))
    · by_cases hu : vr.Type_ = TypeUndefined
      · exact Or.inr (Or.inr (Or.inr (Or.inr (Or.inl ⟨hu, decode_undefined vr slot hu⟩))))
      · by_cases hb : vr.Type_ = TypeBinary
        · cases hr : vr.ReadBinary with
          | error e =>
            exact Or.inr (Or.inr (Or.inr (Or.inr (Or.inr (Or.inl
              ⟨hb, e, rfl, decode_binary_readfail vr slot e hb hr⟩)))))
          | ok pt =>
            obtain ⟨p, t⟩ := pt
            by_cases ht : t = TypeBinaryGeneric ∨ t = TypeBinaryUUID
            · by_cases hlen : p.length = 16
              · exact Or.inr (Or.inr (Or.inr (Or.inr (Or.inr (Or.inr (Or.inr (Or.inl
                  ⟨hb, p, t, hlen, rfl, ht,
                    decode_binary_accept vr slot p t hb hr ht hlen⟩)))))))
              · exact Or.inr (Or.inr (Or.inr (Or.inr (Or.inr (Or.inr (Or.inl
                  ⟨hb, p, t, rfl, ht, hlen,
                    decode_binary_badlen vr slot p t hb hr ht hlen⟩))))))
            · have h0 : t ≠ TypeBinaryGeneric := fun h => ht (Or.inl h)
              have h4 : t ≠ TypeBinaryUUID := fun h => ht (Or.inr h)
              exact Or.inr (Or.inr (Or.inr (Or.inr (Or.inr (Or.inr (Or.inr (Or.inr (Or.inl
                ⟨hb, p, t, rfl, h0, h4,
                  decode_binary_reject vr slot p t hb hr h0 h4⟩))))))))
        · exact Or.inr (Or.inr (Or.inr (Or.inr (Or.inr (Or.inr (Or.inr (Or.inr (Or.inr
            ⟨hs, hn, hu, hb, decode_other_wire_type vr slot hs hn hu hb⟩))))))))

/-- The number of reads the decoder makes on a slot of UUID type. -/
theorem decode_read_count_slot (vr : ValueReader) (slot : UUID) :
    ((UUIDDecodeValue vr (Value.ofUUID slot)).calls.filter ReadCall.isRead).length
      = if ((Value.ofUUID slot).IsValid = true ∧ (Value.ofUUID slot).Type_ = some TypeUUID) ∧
            (vr.Type_ = 0x02 ∨ vr.Type_ = 0x05 ∨ vr.Type_ = 0x0A ∨ vr.Type_ = 0x06)
        then 1 else 0 := by
  have hv : (Value.ofUUID slot).IsValid = true ∧ (Value.ofUUID slot).Type_ = some TypeUUID :=
    ⟨rfl, rfl⟩
  rcases decode_paths vr slot with
      ⟨ht, _, _, h⟩ | ⟨ht, _, _, _, _, h⟩ | ⟨ht, _, _, _, _, h⟩ | ⟨ht, h⟩ | ⟨ht, h⟩ |
      ⟨ht, _, _, h⟩ | ⟨ht, _, _, _, _, _, h⟩ | ⟨ht, _, _, _, _, _, h⟩ |
      ⟨ht, _, _, _, _, _, h⟩ | ⟨hs, hn, hu, hb, h⟩
  · simp [h, hv, ht, ReadCall.isRead, TypeString]
  · simp [h, hv, ht, ReadCall.isRead, TypeString]
  · simp [h, hv, ht, ReadCall.isRead, TypeString]
  · simp [h, hv, ht, ReadCall.isRead, TypeNull]
  · simp [h, hv, ht, ReadCall.isRead, TypeUndefined]
  · simp [h, hv, ht, ReadCall.isRead, TypeBinary]
  · simp [h, hv, ht, ReadCall.isRead, TypeBinary]
  · simp [h, hv, ht, ReadCall.isRead, TypeBinary]
  · simp [h, hv, ht, ReadCall.isRead, TypeBinary]
  · have h2 : ¬ vr.Type_ = 0x02 := hs
    have h5 : ¬ vr.Type_ = 0x05 := hb
    have hA : ¬ vr.Type_ = 0x0A := hn
    have h6 : ¬ vr.Type_ = 0x06 := hu
    simp [h, h2, h5, hA, h6, ReadCall.isRead]

/-! ## The decoder: reads, markers, text, guard -/

/-- C11, where it fails: on a 32-bit integer wire value with a slot of UUID type, and on
a destination that is not of UUID type, the decoder makes no read call, not one. -/
theorem decode_no_read_paths :
    ¬ (((UUIDDecodeValue (failingReader TypeInt32 eofError) (Value.ofUUID UUID.zero)).calls.filter
          ReadCall.isRead).length = 1) ∧
    ¬ (((UUIDDecodeValue (stringReader sampleUUID.String_) wrongValue).calls.filter
          ReadCall.isRead).length = 1) := by
  constructor
  · rw [decode_other_wire_type _ _ (by decide) (by decide) (by decide) (by decide)]
    decide
  · rw [decode_guard_fail _ _ (Or.inr (by decide))]
    decide

/-- C11, amended: the decoder makes exactly one read call on every path on which the
destination is a valid value of UUID type and the wire type is string, binary, null or
undefined, whether the read and what follows it succeed or fail; when the destination is
invalid or not of UUID type, or the wire type is any other, it makes no read call. -/
theorem decode_read_count (vr : ValueReader) (val : Value) :
    ((UUIDDecodeValue vr val).calls.filter ReadCall.isRead).length
      = if (val.IsValid = true ∧ val.Type_ = some TypeUUID) ∧
            (vr.Type_ = 0x02 ∨ vr.Type_ = 0x05 ∨ vr.Type_ = 0x0A ∨ vr.Type_ = 0x06)
        then 1 else 0 := by
  rcases value_guard_cases val with hg | ⟨slot, rfl⟩ | ⟨u, rfl⟩
  · rw [decode_guard_fail vr val hg]
    have hc : ¬ (val.IsValid = true ∧ val.Type_ = some TypeUUID) := by
      rcases hg with h | h
      · simp [h]
      · simp [h]
    simp [hc]
  · exact decode_read_count_slot vr slot
  · rw [(decode_unaddressable_fields vr u).2.1]
    exact decode_read_count_slot vr u

/-- C12, where it fails: with a slot that holds the sample UUID, on an undefined value
and on a null value whose read succeeds, the decoder returns no error and the slot still
holds the sample UUID, which is not the zero UUID. -/
theorem decode_marker_keeps_nonzero_slot :
    (UUIDDecodeValue undefinedReader (Value.ofUUID sampleUUID)).err = none ∧
    (UUIDDecodeValue undefinedReader (Value.ofUUID sampleUUID)).val ≠ Value.ofUUID UUID.zero ∧
    (UUIDDecodeValue nullReader (Value.ofUUID sampleUUID)).err = none ∧
    (UUIDDecodeValue nullReader (Value.ofUUID sampleUUID)).val ≠ Value.ofUUID UUID.zero := by
  rw [decode_undefined undefinedReader sampleUUID rfl, decode_null nullReader sampleUUID rfl]
  exact ⟨rfl, by decide, rfl, by decide⟩

/-- C12, amended: for a slot of UUID type, on an undefined value (likewise a null value)
whose read succeeds, the decoder returns no error and the slot holds what it held before
the call; a slot that held the zero UUID holds the zero UUID after the call. -/
theorem decode_marker_ok (vr : ValueReader) (slot : UUID)
    (h : (vr.Type_ = TypeUndefined ∧ vr.ReadUndefined = none) ∨
      (vr.Type_ = TypeNull ∧ vr.ReadNull = none)) :
    (UUIDDecodeValue vr (Value.ofUUID slot)).err = none ∧
    (UUIDDecodeValue vr (Value.ofUUID slot)).panicked = none ∧
    (UUIDDecodeValue vr (Value.ofUUID slot)).val = Value.ofUUID slot ∧
    (slot = UUID.zero → (UUIDDecodeValue vr (Value.ofUUID slot)).val = Value.ofUUID UUID.zero) := by
  rcases h with ⟨hty, hr⟩ | ⟨hty, hr⟩
  · rw [decode_undefined vr slot hty, hr]
    exact ⟨rfl, rfl, rfl, fun hz => by rw [hz]⟩
  · rw [decode_null vr slot hty, hr]
    exact ⟨rfl, rfl, rfl, fun hz => by rw [hz]⟩

theorem decode_marker_ok_witness :
    ((undefinedReader.Type_ = TypeUndefined ∧ undefinedReader.ReadUndefined = none) ∨
      (undefinedReader.Type_ = TypeNull ∧ undefinedReader.ReadNull = none)) ∧
    (UUIDDecodeValue undefinedReader (Value.ofUUID UUID.zero)).err = none ∧
    (UUIDDecodeValue undefinedReader (Value.ofUUID UUID.zero)).panicked = none ∧
    (UUIDDecodeValue undefinedReader (Value.ofUUID UUID.zero)).val = Value.ofUUID UUID.zero ∧
    (UUID.zero = UUID.zero →
      (UUIDDecodeValue undefinedReader (Value.ofUUID UUID.zero)).val
        = Value.ofUUID UUID.zero) :=
  ⟨Or.inl ⟨rfl, rfl⟩, decode_marker_ok undefinedReader UUID.zero (Or.inl ⟨rfl, rfl⟩)⟩

/-- C13: on a null value the decoder calls `ReadNull`, on an undefined value
`ReadUndefined`, and no other read; it makes no assignment, the slot after the call
being the slot before the call whatever it held; and it returns exactly what that read
returned. -/
theorem decode_marker_frame (vr : ValueReader) (slot : UUID) :
    UUIDDecodeValue { vr with Type_ := TypeNull } (Value.ofUUID slot)
      = ⟨vr.ReadNull, Value.ofUUID slot, [ReadCall.Type_, ReadCall.ReadNull], none⟩ ∧
    UUIDDecodeValue { vr with Type_ := TypeUndefined } (Value.ofUUID slot)
      = ⟨vr.ReadUndefined, Value.ofUUID slot, [ReadCall.Type_, ReadCall.ReadUndefined], none⟩ :=
  ⟨decode_null { vr with Type_ := TypeNull } slot rfl,
    decode_undefined { vr with Type_ := TypeUndefined } slot rfl⟩

/-- C14: for a UUID `v`, when the wire value is a string equal to the canonical
8-4-4-4-12 text of `v` in lower case or in upper case and `ReadString` succeeds, the
decoder returns no error and the slot holds `v`; when the string is
"57CCFF46-A71D-4019-AF2D-70C4BBAF28B9" the slot holds the UUID of bytes
57 CC FF 46 A7 1D 40 19 AF 2D 70 C4 BB AF 28 B9. -/
theorem decode_canonical_string (vr : ValueReader) (slot v : UUID) (s : GoString)
    (hs : s = v.String_ ∨ s = ToUpper v.String_)
    (hty : vr.Type_ = 0x02) (hread : vr.ReadString = .ok s) :
    (UUIDDecodeValue vr (Value.ofUUID slot)).err = none ∧
    (UUIDDecodeValue vr (Value.ofUUID slot)).panicked = none ∧
    (UUIDDecodeValue vr (Value.ofUUID slot)).val = Value.ofUUID v ∧
    (s = GoString.ofString "57CCFF46-A71D-4019-AF2D-70C4BBAF28B9" →
      ∃ u : UUID, (UUIDDecodeValue vr (Value.ofUUID slot)).val = Value.ofUUID u ∧
        u.bytes = [0x57, 0xCC, 0xFF, 0x46, 0xA7, 0x1D, 0x40, 0x19,
          0xAF, 0x2D, 0x70, 0xC4, 0xBB, 0xAF, 0x28, 0xB9]) := by
  have hp : Parse s = .ok v := by
    rcases hs with h | h
    · rw [h]; exact parse_String v
    · rw [h]; exact parse_ToUpper_String v
  refine ⟨?_, ?_, ?_, ?_⟩
  · rw [decode_string_accept vr slot v s hty hread hp]
  · rw [decode_string_accept vr slot v s hty hread hp]
  · rw [decode_string_accept vr slot v s hty hread hp]
  · intro hlit
    have hp2 : Parse s = .ok stringTestUUID := by rw [hlit]; rfl
    rw [decode_string_accept vr slot stringTestUUID s hty hread hp2]
    exact ⟨stringTestUUID, rfl, rfl⟩

theorem decode_canonical_string_witness :
    (ToUpper stringTestUUID.String_ = stringTestUUID.String_ ∨
      ToUpper stringTestUUID.String_ = ToUpper stringTestUUID.String_) ∧
    ToUpper stringTestUUID.String_
      = GoString.ofString "57CCFF46-A71D-4019-AF2D-70C4BBAF28B9" ∧
    (UUIDDecodeValue (stringReader (ToUpper stringTestUUID.String_))
      (Value.ofUUID sampleUUID)).err = none ∧
    (UUIDDecodeValue (stringReader (ToUpper stringTestUUID.String_))
      (Value.ofUUID sampleUUID)).panicked = none ∧
    (UUIDDecodeValue (stringReader (ToUpper stringTestUUID.String_))
      (Value.ofUUID sampleUUID)).val = Value.ofUUID stringTestUUID ∧
    (ToUpper stringTestUUID.String_
        = GoString.ofString "57CCFF46-A71D-4019-AF2D-70C4BBAF28B9" →
      ∃ u : UUID, (UUIDDecodeValue (stringReader (ToUpper stringTestUUID.String_))
          (Value.ofUUID sampleUUID)).val = Value.ofUUID u ∧
        u.bytes = [0x57, 0xCC, 0xFF, 0x46, 0xA7, 0x1D, 0x40, 0x19,
          0xAF, 0x2D, 0x70, 0xC4, 0xBB, 0xAF, 0x28, 0xB9]) :=
  ⟨Or.inr rfl, by decide,
    decode_canonical_string (stringReader (ToUpper stringTestUUID.String_)) sampleUUID
      stringTestUUID (ToUpper stringTestUUID.String_) (Or.inr rfl) rfl rfl⟩

/-- C15: for a destination that is invalid, or whose type is not the UUID type, the
decoder returns a `ValueDecoderError` with Name "UUIDDecodeValue", Types the list of
the UUID type alone and Received the value passed; it makes no call on the reader and
the destination is as it was. -/
theorem decode_rejects_wrong_type (vr : ValueReader) (val : Value)
    (h : val.IsValid = false ∨ val.Type_ ≠ some TypeUUID) :
    (UUIDDecodeValue vr val).err
      = some (GoError.ValueDecoderError "UUIDDecodeValue" [TypeUUID] val) ∧
    (UUIDDecodeValue vr val).calls = [] ∧
    (UUIDDecodeValue vr val).val = val := by
  rw [decode_guard_fail vr val h]
  exact ⟨rfl, rfl, rfl⟩

theorem decode_rejects_wrong_type_witness :
    (wrongValue.IsValid = false ∨ wrongValue.Type_ ≠ some TypeUUID) ∧
    (UUIDDecodeValue nullReader wrongValue).err
      = some (GoError.ValueDecoderError "UUIDDecodeValue" [TypeUUID] wrongValue) ∧
    (UUIDDecodeValue nullReader wrongValue).calls = [] ∧
    (UUIDDecodeValue nullReader wrongValue).val = wrongValue :=
  ⟨Or.inr (by decide), decode_rejects_wrong_type nullReader wrongValue (Or.inr (by decide))⟩

/-! ## The encoder: one write -/

/-- C16: for every value of the UUID type, zero or not, settable or not, and every
writer, the encoder makes exactly one call on the writer and returns exactly what the
writer answered to that call; so it returns no error whenever that call succeeds. -/
theorem encode_one_write (vw : ValueWriter) (v : UUID) :
    (∃ c : WriteCall, (UUIDEncodeValue vw (ValueOf v)).calls = [c] ∧
      (UUIDEncodeValue vw (ValueOf v)).err = vw.answer c ∧
      (vw.answer c = none → (UUIDEncodeValue vw (ValueOf v)).err = none)) ∧
    (∃ c : WriteCall, (UUIDEncodeValue vw (Value.ofUUID v)).calls = [c] ∧
      (UUIDEncodeValue vw (Value.ofUUID v)).err = vw.answer c ∧
      (vw.answer c = none → (UUIDEncodeValue vw (Value.ofUUID v)).err = none)) := by
  by_cases hv : v = UUID.zero
  · subst hv
    rw [encode_zero vw (ValueOf UUID.zero) (Or.inl rfl),
      encode_zero vw (Value.ofUUID UUID.zero) (Or.inr rfl)]
    exact ⟨⟨WriteCall.WriteNull, rfl, rfl, fun h => h⟩, ⟨WriteCall.WriteNull, rfl, rfl, fun h => h⟩⟩
  · rw [encode_nonzero vw (ValueOf v) v (Or.inl rfl) hv,
      encode_nonzero vw (Value.ofUUID v) v (Or.inr rfl) hv]
    exact ⟨⟨WriteCall.WriteBinaryWithSubtype v.bytes TypeBinaryUUID, rfl, rfl, fun h => h⟩,
      ⟨WriteCall.WriteBinaryWithSubtype v.bytes TypeBinaryUUID, rfl, rfl, fun h => h⟩⟩

/-! ## registry.go -/

/-- C17: in the registry that `BuildRegistry` returns, the encoder looked up for the
UUID type is `UUIDEncodeValue` and the decoder is `UUIDDecodeValue`; for every other
type the encoder and the decoder looked up are those of the default registry. -/
theorem buildRegistry_lookups (newRegistry : Registry) :
    (BuildRegistry newRegistry).LookupEncoder TypeUUID = some UUIDEncodeValue ∧
    (BuildRegistry newRegistry).LookupDecoder TypeUUID = some UUIDDecodeValue ∧
    ∀ t : RType, t ≠ TypeUUID →
      (BuildRegistry newRegistry).LookupEncoder t = newRegistry.LookupEncoder t ∧
      (BuildRegistry newRegistry).LookupDecoder t = newRegistry.LookupDecoder t := by
  refine ⟨?_, ?_, ?_⟩
  · simp [BuildRegistry, Registry.LookupEncoder, Registry.RegisterTypeEncoder,
      Registry.RegisterTypeDecoder]
  · simp [BuildRegistry, Registry.LookupDecoder, Registry.RegisterTypeEncoder,
      Registry.RegisterTypeDecoder]
  · intro t ht
    simp [BuildRegistry, Registry.LookupEncoder, Registry.LookupDecoder,
      Registry.RegisterTypeEncoder, Registry.RegisterTypeDecoder, ht]

theorem buildRegistry_lookups_witness :
    RType.other "string" ≠ TypeUUID ∧
    (BuildRegistry emptyRegistry).LookupEncoder TypeUUID = some UUIDEncodeValue ∧
    (BuildRegistry emptyRegistry).LookupDecoder TypeUUID = some UUIDDecodeValue ∧
    (BuildRegistry emptyRegistry).LookupEncoder (RType.other "string")
      = emptyRegistry.LookupEncoder (RType.other "string") ∧
    (BuildRegistry emptyRegistry).LookupDecoder (RType.other "string")
      = emptyRegistry.LookupDecoder (RType.other "string") :=
  ⟨by decide, (buildRegistry_lookups emptyRegistry).1, (buildRegistry_lookups emptyRegistry).2.1,
    (buildRegistry_lookups emptyRegistry).2.2 (RType.other "string") (by decide)⟩

/-! ## The decoder: errors and the slot -/

/-- C18: whatever the reader, the wire value and the destination, when the decoder
returns an error the destination holds what it held before the call; the destination
differs after the call only when nil is returned. -/
theorem decode_error_keeps_slot (vr : ValueReader) (val : Value)
    (h : (UUIDDecodeValue vr val).err ≠ none) :
    (UUIDDecodeValue vr val).val = val := by
  rcases value_guard_cases val with hg | ⟨slot, rfl⟩ | ⟨u, rfl⟩
  · rw [decode_guard_fail vr val hg]
  · rcases decode_paths vr slot with
      ⟨_, _, _, hr⟩ | ⟨_, _, _, _, _, hr⟩ | ⟨_, _, _, _, _, hr⟩ | ⟨_, hr⟩ | ⟨_, hr⟩ |
      ⟨_, _, _, hr⟩ | ⟨_, _, _, _, _, _, hr⟩ | ⟨_, _, _, _, _, _, hr⟩ |
      ⟨_, _, _, _, _, _, hr⟩ | ⟨_, _, _, _, hr⟩
    all_goals rw [hr] at h ⊢
    all_goals first
      | rfl
      | exact absurd rfl h
  · exact (decode_unaddressable_fields vr u).2.2

theorem decode_error_keeps_slot_witness :
    (UUIDDecodeValue (binaryReader sampleUUID.bytes 0x02) (Value.ofUUID UUID.zero)).err
      ≠ none ∧
    (UUIDDecodeValue (binaryReader sampleUUID.bytes 0x02) (Value.ofUUID UUID.zero)).val
      = Value.ofUUID UUID.zero :=
  ⟨by rw [decode_binary_reject _ _ sampleUUID.bytes 0x02 rfl rfl (by decide) (by decide)]
      exact Option.some_ne_none _,
    decode_error_keeps_slot (binaryReader sampleUUID.bytes 0x02) (Value.ofUUID UUID.zero)
      (by rw [decode_binary_reject _ _ sampleUUID.bytes 0x02 rfl rfl (by decide) (by decide)]
          exact Option.some_ne_none _)⟩

/-- The stated failure condition on a slot of UUID type, the guard part being false. -/
theorem statedFailureCondition_ofUUID (vr : ValueReader) (slot : UUID) :
    statedFailureCondition vr (Value.ofUUID slot)
      = ((vr.Type_ == 0x0A && vr.ReadNull.isSome)
        || (vr.Type_ == 0x06 && vr.ReadUndefined.isSome)
        || (vr.Type_ == 0x05 &&
            match vr.ReadBinary with
            | .ok (_, t) => t != 0x00 && t != 0x04
            | .error _ => false)
        || (vr.Type_ != 0x02 && vr.Type_ != 0x05 && vr.Type_ != 0x0A && vr.Type_ != 0x06)) := by
  simp [statedFailureCondition, Value.IsValid, Value.Type_, TypeUUID]

/-- The stated failure condition does not look at whether the destination is settable. -/
theorem statedFailureCondition_unaddressable (vr : ValueReader) (u : UUID) :
    statedFailureCondition vr (Value.unaddressable u)
      = statedFailureCondition vr (Value.ofUUID u) := by
  simp [statedFailureCondition, Value.IsValid, Value.Type_, TypeUUID]

/-- On a slot the decoder returns an error exactly under the stated failure condition. -/
theorem decode_err_iff_slot (vr : ValueReader) (slot : UUID) :
    (UUIDDecodeValue vr (Value.ofUUID slot)).err ≠ none
      ↔ statedFailureCondition vr (Value.ofUUID slot) = true := by
  rw [statedFailureCondition_ofUUID]
  rcases decode_paths vr slot with
    ⟨ht, _, _, h⟩ | ⟨ht, _, _, _, _, h⟩ | ⟨ht, _, _, _, _, h⟩ | ⟨ht, h⟩ | ⟨ht, h⟩ |
    ⟨ht, e, hr, h⟩ | ⟨ht, p, t, hr, htt, _, h⟩ | ⟨ht, p, t, _, hr, htt, h⟩ |
    ⟨ht, p, t, hr, h0, h4, h⟩ | ⟨hs, hn, hu, hb, h⟩
  · simp [h, ht, TypeString]
  · simp [h, ht, TypeString]
  · simp [h, ht, TypeString]
  · simp [h, ht, TypeNull, Option.isSome_iff_ne_none]
  · simp [h, ht, TypeUndefined, Option.isSome_iff_ne_none]
  · simp [h, ht, hr, TypeBinary]
  · rcases htt with htt | htt <;>
      simp [h, ht, hr, htt, TypeBinary, TypeBinaryGeneric, TypeBinaryUUID]
  · rcases htt with htt | htt <;>
      simp [h, ht, hr, htt, TypeBinary, TypeBinaryGeneric, TypeBinaryUUID]
  · have h0' : ¬ t = 0x00 := h0
    have h4' : ¬ t = 0x04 := h4
    simp [h, ht, hr, h0', h4', TypeBinary]
  · have h2 : ¬ vr.Type_ = 0x02 := hs
    have h5 : ¬ vr.Type_ = 0x05 := hb
    have hA : ¬ vr.Type_ = 0x0A := hn
    have h6 : ¬ vr.Type_ = 0x06 := hu
    simp [h, h2, h5, hA, h6]

/-- The decoder returns an error exactly under the stated failure condition. -/
theorem decode_err_iff (vr : ValueReader) (val : Value) :
    (UUIDDecodeValue vr val).err ≠ none ↔ statedFailureCondition vr val = true := by
  rcases value_guard_cases val with hg | ⟨slot, rfl⟩ | ⟨u, rfl⟩
  · rw [decode_guard_fail vr val hg]
    have hc : (!val.IsValid || val.Type_ != some TypeUUID) = true := by
      rcases hg with h | h
      · simp [h]
      · simp [h]
    simp [statedFailureCondition, hc]
  · exact decode_err_iff_slot vr slot
  · rw [(decode_unaddressable_fields vr u).1, statedFailureCondition_unaddressable]
    exact decode_err_iff_slot vr u

/-- The decoder panics exactly when the destination is a valid value of UUID type that
is not settable and the wire value is a string that parses or a payload of 16 bytes
with subtype 0x00 or 0x04. -/
theorem decode_panicked_iff (vr : ValueReader) (val : Value) :
    (UUIDDecodeValue vr val).panicked ≠ none ↔
      (val.IsValid = true ∧ val.Type_ = some TypeUUID ∧ val.CanSet = false) ∧
      ((vr.Type_ = 0x02 ∧ ∃ s v, vr.ReadString = .ok s ∧ Parse s = .ok v) ∨
        (vr.Type_ = 0x05 ∧ ∃ p t, vr.ReadBinary = .ok (p, t) ∧ (t = 0x00 ∨ t = 0x04) ∧
          p.length = 16)) := by
  rcases value_guard_cases val with hg | ⟨slot, rfl⟩ | ⟨u, rfl⟩
  · rw [decode_guard_fail vr val hg]
    have hc : ¬ (val.IsValid = true ∧ val.Type_ = some TypeUUID ∧ val.CanSet = false) := by
      rcases hg with h | h
      · simp [h]
      · simp [h]
    simp [hc]
  · rw [decode_slot_panicked]
    simp [Value.CanSet]
  · rw [decode_unaddressable_panicked_iff]
    simp [Value.IsValid, Value.Type_, Value.CanSet, TypeUUID, TypeString, TypeBinary,
      TypeBinaryGeneric, TypeBinaryUUID]

/-- C19, where it fails: a binary value of subtype 0x04 whose payload is the 16 bytes of
the sample UUID, read with success into a slot that holds the zero UUID, meets none of
the stated failure conditions, and the decoder returns nil, but the slot is not left
unchanged: it holds the sample UUID. The same value read into `reflect.ValueOf` of the
zero UUID, which is valid and of UUID type but not settable, meets none of the stated
failure conditions either, and the decoder does not return nil: `val.Set` panics. -/
theorem decode_success_changes_slot :
    statedFailureCondition (binaryReader sampleUUID.bytes 0x04) (Value.ofUUID UUID.zero)
      = false ∧
    (UUIDDecodeValue (binaryReader sampleUUID.bytes 0x04) (Value.ofUUID UUID.zero)).err
      = none ∧
    (UUIDDecodeValue (binaryReader sampleUUID.bytes 0x04) (Value.ofUUID UUID.zero)).val
      ≠ Value.ofUUID UUID.zero ∧
    statedFailureCondition (binaryReader sampleUUID.bytes 0x04) (ValueOf UUID.zero)
      = false ∧
    (UUIDDecodeValue (binaryReader sampleUUID.bytes 0x04) (ValueOf UUID.zero)).panicked
      = some setPanic := by
  rw [decode_binary_accept _ _ sampleUUID.bytes 0x04 rfl rfl (Or.inr rfl) rfl]
  refine ⟨by decide, rfl, by decide, by decide, ?_⟩
  simp [UUIDDecodeValue, ValueOf, decode_guard_pass_unaddressable, binaryReader,
    TypeString, TypeNull, TypeUndefined, TypeBinary, TypeBinaryUUID,
    fromBytes_of_length sampleUUID.bytes rfl, Value.Set, Value.CanSet]

/-- C19, amended: the decoder returns an error if and only if the destination is invalid
or not of UUID type, or the wire type is null and `ReadNull` fails, or it is undefined
and `ReadUndefined` fails, or it is binary, `ReadBinary` succeeds and the subtype is
neither 0x00 nor 0x04, or it is none of string, binary, null, undefined; it then has
returned, not panicked. It panics, in `val.Set`, exactly when the destination is a valid
value of UUID type that is not settable and the wire value is a string that parses or a
payload of 16 bytes with subtype 0x00 or 0x04. In every other case it returns nil. With
a settable slot of UUID type, on a failed `ReadString`, a failed `ReadBinary`, a string
that does not parse and a payload of subtype 0x00 or 0x04 whose length is not 16, it
returns nil and leaves the slot unchanged; the destination differs after the call only
when it is settable and a string was read that parses or a payload of 16 bytes with
subtype 0x00 or 0x04. -/
theorem decode_failure_condition (vr : ValueReader) (val : Value) :
    ((UUIDDecodeValue vr val).err ≠ none ↔ statedFailureCondition vr val = true) ∧
    ((UUIDDecodeValue vr val).err ≠ none → (UUIDDecodeValue vr val).panicked = none) ∧
    ((UUIDDecodeValue vr val).panicked ≠ none ↔
      (val.IsValid = true ∧ val.Type_ = some TypeUUID ∧ val.CanSet = false) ∧
      ((vr.Type_ = 0x02 ∧ ∃ s v, vr.ReadString = .ok s ∧ Parse s = .ok v) ∨
        (vr.Type_ = 0x05 ∧ ∃ p t, vr.ReadBinary = .ok (p, t) ∧ (t = 0x00 ∨ t = 0x04) ∧
          p.length = 16))) ∧
    (statedFailureCondition vr val = false → (UUIDDecodeValue vr val).panicked = none →
      (UUIDDecodeValue vr val).err = none) ∧
    (∀ slot : UUID, val = Value.ofUUID slot →
      ((vr.Type_ = 0x02 ∧ ∃ e, vr.ReadString = .error e) ∨
        (vr.Type_ = 0x02 ∧ ∃ s e, vr.ReadString = .ok s ∧ Parse s = .error e) ∨
        (vr.Type_ = 0x05 ∧ ∃ e, vr.ReadBinary = .error e) ∨
        (vr.Type_ = 0x05 ∧ ∃ p t, vr.ReadBinary = .ok (p, t) ∧ (t = 0x00 ∨ t = 0x04) ∧
          p.length ≠ 16)) →
      (UUIDDecodeValue vr val).err = none ∧ (UUIDDecodeValue vr val).panicked = none ∧
        (UUIDDecodeValue vr val).val = val) ∧
    ((UUIDDecodeValue vr val).val ≠ val →
      val.CanSet = true ∧
      ((vr.Type_ = 0x02 ∧ ∃ s v, vr.ReadString = .ok s ∧ Parse s = .ok v) ∨
        (vr.Type_ = 0x05 ∧ ∃ p t, vr.ReadBinary = .ok (p, t) ∧ (t = 0x00 ∨ t = 0x04) ∧
          p.length = 16))) := by
  refine ⟨decode_err_iff vr val, ?_, decode_panicked_iff vr val, ?_, ?_, ?_⟩
  · intro herr
    rcases value_guard_cases val with hg | ⟨slot, rfl⟩ | ⟨u, rfl⟩
    · rw [decode_guard_fail vr val hg]
    · exact decode_slot_panicked vr slot
    · by_contra hp
      rw [(decode_unaddressable_fields vr u).1] at herr
      rcases (decode_unaddressable_panicked_iff vr u).mp hp with
        ⟨ht, s, v, hr, hps⟩ | ⟨ht, p, t, hr, htt, hlen⟩
      · rw [decode_string_accept vr u v s ht hr hps] at herr
        exact herr rfl
      · rw [decode_binary_accept vr u p t ht hr htt hlen] at herr
        exact herr rfl
  · intro hc _
    by_contra hne
    have := (decode_err_iff vr val).mp hne
    rw [hc] at this
    exact Bool.false_ne_true this
  · rintro slot rfl hcase
    rcases hcase with ⟨hty, e, hr⟩ | ⟨hty, s, e, hr, hp⟩ | ⟨hty, e, hr⟩ |
      ⟨hty, p, t, hr, ht, hlen⟩
    · rw [decode_string_readfail vr slot e hty hr]; exact ⟨rfl, rfl, rfl⟩
    · rw [decode_string_parsefail vr slot s e hty hr hp]; exact ⟨rfl, rfl, rfl⟩
    · rw [decode_binary_readfail vr slot e hty hr]; exact ⟨rfl, rfl, rfl⟩
    · rw [decode_binary_badlen vr slot p t hty hr ht hlen]; exact ⟨rfl, rfl, rfl⟩
  · intro hne
    rcases value_guard_cases val with hg | ⟨slot, rfl⟩ | ⟨u, rfl⟩
    · rw [decode_guard_fail vr val hg] at hne
      exact absurd rfl hne
    · refine ⟨rfl, ?_⟩
      rcases decode_paths vr slot with
        ⟨_, _, _, h⟩ | ⟨_, _, _, _, _, h⟩ | ⟨ht, s, v, hr, hp, _⟩ | ⟨_, h⟩ | ⟨_, h⟩ |
        ⟨_, _, _, h⟩ | ⟨_, _, _, _, _, _, h⟩ | ⟨ht, p, t, hlen, hr, htt, _⟩ |
        ⟨_, _, _, _, _, _, h⟩ | ⟨_, _, _, _, h⟩
      · rw [h] at hne; exact absurd rfl hne
      · rw [h] at hne; exact absurd rfl hne
      · exact Or.inl ⟨ht, s, v, hr, hp⟩
      · rw [h] at hne; exact absurd rfl hne
      · rw [h] at hne; exact absurd rfl hne
      · rw [h] at hne; exact absurd rfl hne
      · rw [h] at hne; exact absurd rfl hne
      · exact Or.inr ⟨ht, p, t, hr, htt, hlen⟩
      · rw [h] at hne; exact absurd rfl hne
      · rw [h] at hne; exact absurd rfl hne
    · exact absurd (decode_unaddressable_fields vr u).2.2 hne

end Bsonuuid
